import Mathlib

/-!
Shallow embedding of `dial8 MacOS/Services/PiperTTS/PiperTTSBridge.c`.

The C file defines the sherpa-onnx offline TTS configuration structs and two
helper functions: `createPiperTtsConfig`, which heap-allocates a zeroed
`SherpaOnnxOfflineTtsConfig` and fills in the VITS model paths together with
fixed default parameters, and `freePiperTtsConfig`, which frees the handle
with a null guard.

Modelling choices:
  * A `const char *` value is modelled by `CStr`: the null pointer, an
    abstract caller-supplied pointer (identified by a number, so that
    equality is pointer identity), or a pointer to a static string literal
    in the binary.  The bridge never dereferences any string, so this
    captures exactly what the code observes.
  * `float` fields hold the exact rational value of the literal that the
    C code assigns (the code only stores constants, never computes).
  * `int32_t` fields are modelled by `Int`; every value stored is a small
    constant, so no wraparound can occur.
  * The heap is a list of (address, stored aggregate) pairs.  `calloc`
    either fails (modelled by the `callocResult` argument being `none`) or
    returns a fresh address with zero-filled contents; `free` removes the
    entry.
-/

/-- A C string pointer value: the null pointer, a caller-supplied pointer
identified abstractly by its address, or a pointer to a static string
literal baked into the binary. -/
inductive CStr where
  | null : CStr
  | ptr : Nat → CStr
  | lit : String → CStr
deriving DecidableEq, Repr

/-- Embedding of `SherpaOnnxOfflineTtsVitsModelConfig` (field order as in the
C struct). -/
structure SherpaOnnxOfflineTtsVitsModelConfig where
  model : CStr
  lexicon : CStr
  tokens : CStr
  data_dir : CStr
  noise_scale : ℚ
  noise_scale_w : ℚ
  length_scale : ℚ
  dict_dir : CStr
deriving DecidableEq, Repr

/-- Embedding of `SherpaOnnxOfflineTtsMatchaModelConfig`. -/
structure SherpaOnnxOfflineTtsMatchaModelConfig where
  acoustic_model : CStr
  vocoder : CStr
  lexicon : CStr
  tokens : CStr
  data_dir : CStr
  noise_scale : ℚ
  length_scale : ℚ
deriving DecidableEq, Repr

/-- Embedding of `SherpaOnnxOfflineTtsKokoroModelConfig`. -/
structure SherpaOnnxOfflineTtsKokoroModelConfig where
  model : CStr
  voices : CStr
  vocode : CStr
  num_tasks : Int
deriving DecidableEq, Repr

/-- Embedding of `SherpaOnnxOfflineTtsKittenModelConfig`. -/
structure SherpaOnnxOfflineTtsKittenModelConfig where
  encoder : CStr
  embedding : CStr
  t2s : CStr
  vocoder : CStr
  lexicon : CStr
  tokens : CStr
  data_dir : CStr
  length_scale : ℚ
deriving DecidableEq, Repr

/-- Embedding of `SherpaOnnxOfflineTtsModelConfig`. -/
structure SherpaOnnxOfflineTtsModelConfig where
  vits : SherpaOnnxOfflineTtsVitsModelConfig
  num_threads : Int
  debug : Int
  provider : CStr
  matcha : SherpaOnnxOfflineTtsMatchaModelConfig
  kokoro : SherpaOnnxOfflineTtsKokoroModelConfig
  kitten : SherpaOnnxOfflineTtsKittenModelConfig
deriving DecidableEq, Repr

/-- Embedding of the top-level `SherpaOnnxOfflineTtsConfig`. -/
structure SherpaOnnxOfflineTtsConfig where
  model : SherpaOnnxOfflineTtsModelConfig
  rule_fsts : CStr
  max_num_sentences : Int
  rule_fars : CStr
  silence_scale : ℚ
deriving DecidableEq, Repr

/-- The all-zero-bytes VITS sub-record: null pointers and zero numerics. -/
def zeroVits : SherpaOnnxOfflineTtsVitsModelConfig :=
  { model := .null, lexicon := .null, tokens := .null, data_dir := .null,
    noise_scale := 0, noise_scale_w := 0, length_scale := 0, dict_dir := .null }

/-- The all-zero-bytes Matcha sub-record. -/
def zeroMatcha : SherpaOnnxOfflineTtsMatchaModelConfig :=
  { acoustic_model := .null, vocoder := .null, lexicon := .null,
    tokens := .null, data_dir := .null, noise_scale := 0, length_scale := 0 }

/-- The all-zero-bytes Kokoro sub-record. -/
def zeroKokoro : SherpaOnnxOfflineTtsKokoroModelConfig :=
  { model := .null, voices := .null, vocode := .null, num_tasks := 0 }

/-- The all-zero-bytes Kitten sub-record. -/
def zeroKitten : SherpaOnnxOfflineTtsKittenModelConfig :=
  { encoder := .null, embedding := .null, t2s := .null, vocoder := .null,
    lexicon := .null, tokens := .null, data_dir := .null, length_scale := 0 }

/-- The all-zero-bytes top-level aggregate, i.e. what
`calloc(1, sizeof(SherpaOnnxOfflineTtsConfig))` yields on success. -/
def zeroConfig : SherpaOnnxOfflineTtsConfig :=
  { model := { vits := zeroVits, num_threads := 0, debug := 0,
               provider := .null, matcha := zeroMatcha,
               kokoro := zeroKokoro, kitten := zeroKitten },
    rule_fsts := .null, max_num_sentences := 0, rule_fars := .null,
    silence_scale := 0 }

/-- `memset(config, 0, sizeof(SherpaOnnxOfflineTtsConfig))`: overwrites every
byte of the aggregate with zero, regardless of what was there. -/
def memsetZeroConfig (_config : SherpaOnnxOfflineTtsConfig) :
    SherpaOnnxOfflineTtsConfig :=
  zeroConfig

/-- The sequence of field assignments performed by `createPiperTtsConfig`
after allocation (source lines 75-94), applied statement by statement to the
aggregate pointed to by `config`. -/
def assignConfigFields (model_path tokens_path data_dir : CStr)
    (config : SherpaOnnxOfflineTtsConfig) : SherpaOnnxOfflineTtsConfig :=
  let config := { config with model.vits.model := model_path }
  let config := { config with model.vits.tokens := tokens_path }
  let config := { config with model.vits.data_dir := data_dir }
  let config := { config with model.vits.lexicon := CStr.lit "" }
  let config := { config with model.vits.noise_scale := 0.667 }
  let config := { config with model.vits.noise_scale_w := 0.8 }
  let config := { config with model.vits.length_scale := 1.0 }
  let config := { config with model.vits.dict_dir := CStr.lit "" }
  let config := { config with model.num_threads := 8 }
  let config := { config with model.debug := 0 }
  let config := { config with model.provider := CStr.lit "cpu" }
  let config := { config with rule_fsts := CStr.lit "" }
  let config := { config with rule_fars := CStr.lit "" }
  let config := { config with max_num_sentences := 2 }
  let config := { config with silence_scale := 0.3 }
  config

/-- The aggregate stored behind the returned pointer on a successful call:
calloc zero-fill, then the (redundant) memset, then the field assignments. -/
def buildConfig (model_path tokens_path data_dir : CStr) :
    SherpaOnnxOfflineTtsConfig :=
  assignConfigFields model_path tokens_path data_dir
    (memsetZeroConfig zeroConfig)

/-- The same aggregate built without the `memset` statement. -/
def buildConfigNoMemset (model_path tokens_path data_dir : CStr) :
    SherpaOnnxOfflineTtsConfig :=
  assignConfigFields model_path tokens_path data_dir zeroConfig

/-- The heap: a finite map from allocated addresses to the aggregates stored
there. -/
abbrev Heap := List (Nat × SherpaOnnxOfflineTtsConfig)

/-- Embedding of `createPiperTtsConfig`.  `callocResult` models the outcome
of `calloc`: `none` when allocation fails, `some p` when it succeeds and
returns the (fresh) address `p` with zero-filled contents.  The function
returns the updated heap and the returned pointer (`none` is `NULL`). -/
def createPiperTtsConfig (callocResult : Option Nat) (h : Heap)
    (model_path tokens_path data_dir : CStr) : Heap × Option Nat :=
  match callocResult with
  | none => (h, none)
  | some p =>
      let config := zeroConfig
      let config := memsetZeroConfig config
      let config := assignConfigFields model_path tokens_path data_dir config
      ((p, config) :: h, some p)

/-- Embedding of `createPiperTtsConfig` with the `memset` statement removed,
used to state the redundancy claim. -/
def createPiperTtsConfigNoMemset (callocResult : Option Nat) (h : Heap)
    (model_path tokens_path data_dir : CStr) : Heap × Option Nat :=
  match callocResult with
  | none => (h, none)
  | some p =>
      let config := zeroConfig
      let config := assignConfigFields model_path tokens_path data_dir config
      ((p, config) :: h, some p)

/-- Embedding of `freePiperTtsConfig`: if the handle is null, do nothing;
otherwise `free` removes the allocation from the heap. -/
def freePiperTtsConfig (h : Heap) (config : Option Nat) : Heap :=
  match config with
  | none => h
  | some p => h.filter (fun e => e.1 != p)

/-- Every pointer-valued (`const char *`) field of the aggregate, in struct
layout order: the five VITS strings, the five Matcha strings, the three
Kokoro strings, the seven Kitten strings, the provider, and the two
top-level rule-file paths. -/
def pointerFields (c : SherpaOnnxOfflineTtsConfig) : List CStr :=
  [c.model.vits.model, c.model.vits.lexicon, c.model.vits.tokens,
   c.model.vits.data_dir, c.model.vits.dict_dir,
   c.model.matcha.acoustic_model, c.model.matcha.vocoder,
   c.model.matcha.lexicon, c.model.matcha.tokens, c.model.matcha.data_dir,
   c.model.kokoro.model, c.model.kokoro.voices, c.model.kokoro.vocode,
   c.model.kitten.encoder, c.model.kitten.embedding, c.model.kitten.t2s,
   c.model.kitten.vocoder, c.model.kitten.lexicon, c.model.kitten.tokens,
   c.model.kitten.data_dir,
   c.model.provider, c.rule_fsts, c.rule_fars]

/-- The aggregate with the three caller-dependent fields blanked out, used to
state that nothing else depends on the inputs. -/
def eraseInputFields (c : SherpaOnnxOfflineTtsConfig) :
    SherpaOnnxOfflineTtsConfig :=
  { c with model.vits.model := CStr.null, model.vits.tokens := CStr.null,
           model.vits.data_dir := CStr.null }

/-- C1: for every triple of input strings, if allocation succeeds then
`createPiperTtsConfig` returns a non-null handle whose VITS sub-record's
`model`, `tokens` and `data_dir` fields are exactly the three input
references (the same pointer values, aliased rather than copied). -/
theorem createPiperTtsConfig_aliases_inputs (p : Nat) (h : Heap)
    (a b c : CStr) :
    ∃ cfg, (createPiperTtsConfig (some p) h a b c).2 = some p ∧
      List.lookup p (createPiperTtsConfig (some p) h a b c).1 = some cfg ∧
      cfg.model.vits.model = a ∧ cfg.model.vits.tokens = b ∧
      cfg.model.vits.data_dir = c := by
  refine ⟨buildConfig a b c, rfl, ?_, rfl, rfl, rfl⟩
  simp [createPiperTtsConfig, buildConfig, List.lookup]

/-- C2: for every input, the aggregate returned by a successful
`createPiperTtsConfig` has exactly the constant field values
`vits.noise_scale = 0.667`, `vits.noise_scale_w = 0.8`,
`vits.length_scale = 1.0`, `max_num_sentences = 2`, `silence_scale = 0.3`,
`debug = 0` and `provider = "cpu"`. -/
theorem createPiperTtsConfig_constant_defaults (p : Nat) (h : Heap)
    (a b c : CStr) :
    ∃ cfg, (createPiperTtsConfig (some p) h a b c).2 = some p ∧
      List.lookup p (createPiperTtsConfig (some p) h a b c).1 = some cfg ∧
      cfg.model.vits.noise_scale = 0.667 ∧
      cfg.model.vits.noise_scale_w = 0.8 ∧
      cfg.model.vits.length_scale = 1.0 ∧
      cfg.max_num_sentences = 2 ∧
      cfg.silence_scale = 0.3 ∧
      cfg.model.debug = 0 ∧
      cfg.model.provider = CStr.lit "cpu" := by
  refine ⟨buildConfig a b c, rfl, ?_, rfl, rfl, rfl, rfl, rfl, rfl, rfl⟩
  simp [createPiperTtsConfig, buildConfig, List.lookup]

/-- C3: for every input, after a successful `createPiperTtsConfig` every
field of the Matcha, Kokoro and Kitten sub-records of the returned aggregate
is zero (null pointers and zero numerics). -/
theorem createPiperTtsConfig_other_families_zero (p : Nat) (h : Heap)
    (a b c : CStr) :
    ∃ cfg, (createPiperTtsConfig (some p) h a b c).2 = some p ∧
      List.lookup p (createPiperTtsConfig (some p) h a b c).1 = some cfg ∧
      cfg.model.matcha.acoustic_model = CStr.null ∧
      cfg.model.matcha.vocoder = CStr.null ∧
      cfg.model.matcha.lexicon = CStr.null ∧
      cfg.model.matcha.tokens = CStr.null ∧
      cfg.model.matcha.data_dir = CStr.null ∧
      cfg.model.matcha.noise_scale = 0 ∧
      cfg.model.matcha.length_scale = 0 ∧
      cfg.model.kokoro.model = CStr.null ∧
      cfg.model.kokoro.voices = CStr.null ∧
      cfg.model.kokoro.vocode = CStr.null ∧
      cfg.model.kokoro.num_tasks = 0 ∧
      cfg.model.kitten.encoder = CStr.null ∧
      cfg.model.kitten.embedding = CStr.null ∧
      cfg.model.kitten.t2s = CStr.null ∧
      cfg.model.kitten.vocoder = CStr.null ∧
      cfg.model.kitten.lexicon = CStr.null ∧
      cfg.model.kitten.tokens = CStr.null ∧
      cfg.model.kitten.data_dir = CStr.null ∧
      cfg.model.kitten.length_scale = 0 := by
  refine ⟨buildConfig a b c, rfl, ?_, rfl, rfl, rfl, rfl, rfl, rfl, rfl,
    rfl, rfl, rfl, rfl, rfl, rfl, rfl, rfl, rfl, rfl, rfl, rfl⟩
  simp [createPiperTtsConfig, buildConfig, List.lookup]

/-- C4: calling `freePiperTtsConfig` with a null handle is a no-op: it
performs no deallocation and leaves the heap unchanged (the function is
total, so no error is raised). -/
theorem freePiperTtsConfig_null_noop (h : Heap) :
    freePiperTtsConfig h none = h :=
  rfl

/-- C5: if the allocation inside `createPiperTtsConfig` fails, the function
returns a null handle and leaves the heap unchanged (no partially
initialized object is exposed); allocation failure is the only failure mode:
whenever allocation succeeds, a non-null handle is returned. -/
theorem createPiperTtsConfig_alloc_failure (h : Heap) (a b c : CStr) :
    createPiperTtsConfig none h a b c = (h, none) ∧
    ∀ p : Nat, (createPiperTtsConfig (some p) h a b c).2 = some p :=
  ⟨rfl, fun _ => rfl⟩

/-- C6: for every input, a successful `createPiperTtsConfig` sets the four
optional string fields `lexicon`, `dict_dir`, `rule_fsts` and `rule_fars` to
the empty string (the empty-string unset sentinel, which is not the null
pointer). -/
theorem createPiperTtsConfig_empty_string_sentinels (p : Nat) (h : Heap)
    (a b c : CStr) :
    ∃ cfg, (createPiperTtsConfig (some p) h a b c).2 = some p ∧
      List.lookup p (createPiperTtsConfig (some p) h a b c).1 = some cfg ∧
      cfg.model.vits.lexicon = CStr.lit "" ∧
      cfg.model.vits.dict_dir = CStr.lit "" ∧
      cfg.rule_fsts = CStr.lit "" ∧
      cfg.rule_fars = CStr.lit "" ∧
      CStr.lit "" ≠ CStr.null := by
  refine ⟨buildConfig a b c, rfl, ?_, rfl, rfl, rfl, rfl, by simp⟩
  simp [createPiperTtsConfig, buildConfig, List.lookup]

/-- C7: the `num_threads` field set by `createPiperTtsConfig` is the single
fixed constant 8 for every input, which is one of the two documented
revision defaults (2 or 8). -/
theorem createPiperTtsConfig_num_threads (p : Nat) (h : Heap)
    (a b c : CStr) :
    ∃ cfg, (createPiperTtsConfig (some p) h a b c).2 = some p ∧
      List.lookup p (createPiperTtsConfig (some p) h a b c).1 = some cfg ∧
      cfg.model.num_threads = 8 ∧
      (cfg.model.num_threads = 2 ∨ cfg.model.num_threads = 8) := by
  refine ⟨buildConfig a b c, rfl, ?_, rfl, Or.inr rfl⟩
  simp [createPiperTtsConfig, buildConfig, List.lookup]

/-- C8: every pointer-valued field of the aggregate built by a successful
`createPiperTtsConfig` is one of the three caller-supplied input references,
the constant string "cpu", the empty string, or null. -/
theorem buildConfig_pointer_fields_closed (a b c : CStr) (f : CStr)
    (hf : f ∈ pointerFields (buildConfig a b c)) :
    f = a ∨ f = b ∨ f = c ∨ f = CStr.lit "cpu" ∨ f = CStr.lit "" ∨
      f = CStr.null := by
  simp only [pointerFields, buildConfig, assignConfigFields,
    memsetZeroConfig, zeroConfig, zeroVits, zeroMatcha, zeroKokoro,
    zeroKitten, List.mem_cons, List.mem_singleton] at hf
  tauto

/-- Witness for C8: the provider field of a concrete build is in the allowed
set of pointer values. -/
theorem buildConfig_pointer_fields_closed_witness :
    CStr.lit "cpu" = CStr.ptr 1 ∨ CStr.lit "cpu" = CStr.ptr 2 ∨
    CStr.lit "cpu" = CStr.ptr 3 ∨ CStr.lit "cpu" = CStr.lit "cpu" ∨
    CStr.lit "cpu" = CStr.lit "" ∨ CStr.lit "cpu" = CStr.null :=
  buildConfig_pointer_fields_closed (.ptr 1) (.ptr 2) (.ptr 3)
    (CStr.lit "cpu")
    (by simp [pointerFields, buildConfig, assignConfigFields,
      memsetZeroConfig, zeroConfig])

/-- C9: `createPiperTtsConfig` never inspects its inputs: any two runs under
successful allocation both succeed, and the built aggregates agree on every
field except `vits.model`, `vits.tokens` and `vits.data_dir`, which hold the
respective inputs (the function is pure, so no input-dependent effect or
validation error is possible). -/
theorem createPiperTtsConfig_noninterference
    (a1 a2 a3 b1 b2 b3 : CStr) :
    (∀ (p : Nat) (h : Heap),
      (createPiperTtsConfig (some p) h a1 a2 a3).2 = some p ∧
      (createPiperTtsConfig (some p) h b1 b2 b3).2 = some p) ∧
    eraseInputFields (buildConfig a1 a2 a3) =
      eraseInputFields (buildConfig b1 b2 b3) ∧
    (buildConfig a1 a2 a3).model.vits.model = a1 ∧
    (buildConfig a1 a2 a3).model.vits.tokens = a2 ∧
    (buildConfig a1 a2 a3).model.vits.data_dir = a3 ∧
    (buildConfig b1 b2 b3).model.vits.model = b1 ∧
    (buildConfig b1 b2 b3).model.vits.tokens = b2 ∧
    (buildConfig b1 b2 b3).model.vits.data_dir = b3 :=
  ⟨fun _ _ => ⟨rfl, rfl⟩, rfl, rfl, rfl, rfl, rfl, rfl, rfl⟩

/-- C10: the `memset` performed after `calloc` in `createPiperTtsConfig` is
redundant: on every allocator outcome, heap and input triple, the function
is observably equal to the variant without the `memset`, because `calloc`
already yields a zero-initialized aggregate. -/
theorem createPiperTtsConfig_memset_redundant (r : Option Nat) (h : Heap)
    (a b c : CStr) :
    createPiperTtsConfig r h a b c =
      createPiperTtsConfigNoMemset r h a b c := by
  cases r <;> rfl
